import Mathlib

/-!
# VIGAMO — Join & Scoring Engine: a shallow embedding

This file embeds the core `processData` function of the VIGAMO repository
(the EV-fleet compliance scoring engine) in Lean 4 and proves the spec's
testable properties about it.

Modelling conventions:
* JavaScript numbers carrying energy values (`billedKwh`, `detectedKwh`)
  are modelled as rationals (`Rat`): the engine only subtracts, takes
  absolute values and compares against the 2.0 kWh tolerance.
* Date strings (`registrationValidTill`, `pollutionValidTill`) are
  modelled as integer timestamps; `new Date(x || 0)` on a missing registry
  record yields the epoch, modelled as `0`.  The call `new Date()` (the
  wall clock at scoring time) is an explicit parameter `now : Int`, and
  `new Date(a) > new Date(b)` is strict `>` on timestamps.
* A failed lookup (`aiDetections.find` returns `undefined`,
  `rtoDatabase[plate]` is absent) is modelled by `Option`.
* The registry database `Record<string, RtoData>` is modelled as a lookup
  function `String → Option RtoData`.
* The JavaScript `Set` `suspiciousSessions` only ever answers membership
  queries, so it is modelled by the membership predicate `plateSuspicious`;
  the counter object `discrepancyCounts` increments once per flagged
  transaction of a charger, so it is modelled by `chargerDiscrepancyCount`,
  and the lookup of an absent key (`undefined >= 3` is `false` in JS)
  coincides with a count of `0`.
* The falsy test `detection.detectedKwh || tx.billedKwh` is modelled
  explicitly: a present reading of `0` (the only falsy rational) falls
  back to `billedKwh`, exactly as in JS.
-/

/-- One row of the charging transaction log (interface `Transaction`). -/
structure Transaction where
  timestamp : String
  plate : String
  billedKwh : Rat
  amount : Rat
  chargerId : String
deriving Repr, DecidableEq

/-- One AI vehicle-detection record (interface `AiDetection`).
`helmet : boolean | null` becomes `Option Bool` (`none` = null). -/
structure AiDetection where
  plate : String
  vehicleType : String
  helmet : Option Bool
  detectedKwh : Rat
  timestamp : String
deriving Repr, DecidableEq

/-- One motor-registry record (interface `RtoData`); date strings are
integer timestamps. -/
structure RtoData where
  owner : String
  vehicleType : String
  registrationValidTill : Int
  insuranceStatus : String
  pollutionValidTill : Int
  pendingFine : Int
  fineReason : String
  roadTaxStatus : String
deriving Repr, DecidableEq

/-- The `charging` sub-record of `ProcessedVehicleData`. -/
structure ChargingInfo where
  billed : Rat
  detected : Rat
  difference : Rat
  discrepancyFlag : String
deriving Repr, DecidableEq

/-- The `compliance` sub-record of `ProcessedVehicleData`. -/
structure ComplianceInfo where
  score : Int
  fineStatus : String
  insuranceStatus : String
  pucStatus : String
  taxStatus : String
  registrationStatus : String
  overallStatus : List String
deriving Repr, DecidableEq

/-- The scored output record (interface `ProcessedVehicleData`).  The
source stores the possibly-empty joined registry object (`rto as RtoData`);
here the possibly-missing record is an `Option`. -/
structure ProcessedVehicleData where
  plate : String
  vehicleType : String
  helmet : Option Bool
  rto : Option RtoData
  charging : ChargingInfo
  compliance : ComplianceInfo
deriving Repr, DecidableEq

/-- Lookup `aiDetections.find(d => d.plate === tx.plate)`: the first
detection whose plate matches. -/
def findDetection (ds : List AiDetection) (plate : String) : Option AiDetection :=
  ds.find? (fun d => d.plate == plate)

/-- Model of `Math.abs` on the rational model of a JS number. -/
def ratAbs (q : Rat) : Rat := if q < 0 then -q else q

/-- Pass 1, per transaction: the transaction has a matching detection and
`Math.abs(tx.billedKwh - detection.detectedKwh) > 2.0`. -/
def txSuspicious (ds : List AiDetection) (tx : Transaction) : Bool :=
  match findDetection ds tx.plate with
  | some d => ratAbs (tx.billedKwh - d.detectedKwh) > 2
  | none => false

/-- Pass 1: `suspiciousSessions.has(plate)` — some transaction with this
plate was flagged. -/
def plateSuspicious (txs : List Transaction) (ds : List AiDetection)
    (plate : String) : Bool :=
  txs.any (fun tx => tx.plate == plate && txSuspicious ds tx)

/-- Pass 1: `discrepancyCounts[chargerId]` — number of flagged transactions
whose `chargerId` matches (an absent key reads as `0`). -/
def chargerDiscrepancyCount (txs : List Transaction) (ds : List AiDetection)
    (chargerId : String) : Nat :=
  (txs.filter (fun tx => tx.chargerId == chargerId && txSuspicious ds tx)).length

/-- One `if` statement of the scoring block:
`score -= 20; overallStatus.push(msg)` guarded by a condition, acting on
the running (score, violation list) state. -/
def applyCheck (st : Int × List String) (cond : Bool) (msg : String) :
    Int × List String :=
  if cond then (st.1 - 20, st.2 ++ [msg]) else st

/-- Resolution `detection.detectedKwh || tx.billedKwh`: the detected
reading, falling back to the billed energy when the detection is absent
or the reading is the falsy `0`. -/
def detectedValOf (detection : Option AiDetection) (billed : Rat) : Rat :=
  match detection with
  | some d => if d.detectedKwh = 0 then billed else d.detectedKwh
  | none => billed

/-- Lines 31–36: the discrepancy flag of a transaction, from the Pass-1
aggregates. -/
def discrepancyFlagOf (txs : List Transaction) (ds : List AiDetection)
    (tx : Transaction) : String :=
  if chargerDiscrepancyCount txs ds tx.chargerId ≥ 3 then
    "Potential Charger Fault"
  else if plateSuspicious txs ds tx.plate then "Suspicious"
  else "OK"

/-- Timestamp of `new Date(rto.registrationValidTill || 0)`: the epoch
(`0`) when the registry record is absent. -/
def regTillOf (rto : Option RtoData) : Int :=
  match rto with
  | some r => r.registrationValidTill
  | none => 0

/-- Timestamp of `new Date(rto.pollutionValidTill || 0)`. -/
def pucTillOf (rto : Option RtoData) : Int :=
  match rto with
  | some r => r.pollutionValidTill
  | none => 0

/-- Check `rto.insuranceStatus === 'Active'` (`undefined !== 'Active'`,
so an absent record is not active). -/
def insuranceActiveOf (rto : Option RtoData) : Bool :=
  match rto with
  | some r => r.insuranceStatus == "Active"
  | none => false

/-- Value `rto.pendingFine`, read as `0` when absent (it is only compared
with `0` and printed when positive, and `undefined > 0` is `false` in
JS). -/
def fineOf (rto : Option RtoData) : Int :=
  match rto with
  | some r => r.pendingFine
  | none => 0

/-- Check `rto.pendingFine > 0` (`false` when the record is absent). -/
def fineDueOf (rto : Option RtoData) : Bool :=
  match rto with
  | some r => decide (r.pendingFine > 0)
  | none => false

/-- Check `rto.roadTaxStatus === 'Paid'` (`false` when the record is
absent). -/
def taxPaidOf (rto : Option RtoData) : Bool :=
  match rto with
  | some r => r.roadTaxStatus == "Paid"
  | none => false

/-- Check `detection.vehicleType === '2-Wheeler' && !detection.helmet`
(`false` when the detection is absent; `!helmet` is `true` for both
`false` and `null`). -/
def helmetAdvisoryOf (detection : Option AiDetection) : Bool :=
  match detection with
  | some d => d.vehicleType == "2-Wheeler" && !(d.helmet.getD false)
  | none => false

/-- Template `Reg Expired for ${tx.plate}`. -/
def regMsg (plate : String) : String := "Reg Expired for " ++ plate

/-- Template `Insurance Expired for ${tx.plate}`. -/
def insMsg (plate : String) : String := "Insurance Expired for " ++ plate

/-- Template `PUC Expired for ${tx.plate}`. -/
def pucMsg (plate : String) : String := "PUC Expired for " ++ plate

/-- Template `Fine Pending: ₹${rto.pendingFine} on ${tx.plate}`. -/
def fineMsg (fine : Int) (plate : String) : String :=
  "Fine Pending: ₹" ++ toString fine ++ " on " ++ plate

/-- Template `Tax Due for ${tx.plate}`. -/
def taxMsg (plate : String) : String := "Tax Due for " ++ plate

/-- Template `Charging Discrepancy on ${tx.plate}`. -/
def chargingMsg (plate : String) : String := "Charging Discrepancy on " ++ plate

/-- Template `No Helmet on ${tx.plate}`. -/
def helmetMsg (plate : String) : String := "No Helmet on " ++ plate

/-- Pass 2, body of `transactions.map(tx => ...)`: resolve the detection
and registry records, compute the discrepancy flag from the Pass-1
aggregates, run the six scoring checks in source order, then assemble the
`ProcessedVehicleData` record. -/
def scoreTx (txs : List Transaction) (ds : List AiDetection)
    (rtoDatabase : String → Option RtoData) (now : Int)
    (tx : Transaction) : ProcessedVehicleData :=
  let detection := findDetection ds tx.plate
  let rto := rtoDatabase tx.plate
  let detectedVal : Rat := detectedValOf detection tx.billedKwh
  let difference := tx.billedKwh - detectedVal
  let discrepancyFlag : String := discrepancyFlagOf txs ds tx
  let isRegValid : Bool := decide (regTillOf rto > now)
  let isPucValid : Bool := decide (pucTillOf rto > now)
  let fine : Int := fineOf rto
  let st1 := applyCheck (100, []) (!isRegValid) (regMsg tx.plate)
  let st2 := applyCheck st1 (!insuranceActiveOf rto) (insMsg tx.plate)
  let st3 := applyCheck st2 (!isPucValid) (pucMsg tx.plate)
  let st4 := applyCheck st3 (fineDueOf rto) (fineMsg fine tx.plate)
  let st5 := applyCheck st4 (!taxPaidOf rto) (taxMsg tx.plate)
  let st6 := applyCheck st5 (discrepancyFlag != "OK") (chargingMsg tx.plate)
  let overallStatus :=
    if helmetAdvisoryOf detection then st6.2 ++ [helmetMsg tx.plate]
    else st6.2
  { plate := tx.plate
    vehicleType := match detection with
      | some d => d.vehicleType
      | none => "Other"
    helmet := match detection with
      | some d => d.helmet
      | none => none
    rto := rto
    charging :=
      { billed := tx.billedKwh
        detected := detectedVal
        difference := difference
        discrepancyFlag := discrepancyFlag }
    compliance :=
      { score := max 0 st6.1
        fineStatus := if fineDueOf rto then "₹" ++ toString fine else "OK"
        insuranceStatus := match rto with
          | some r => r.insuranceStatus
          | none => "Expired"
        pucStatus := if isPucValid then "Valid" else "Expired"
        taxStatus := match rto with
          | some r => r.roadTaxStatus
          | none => "Due"
        registrationStatus := if isRegValid then "Valid" else "Expired"
        overallStatus := overallStatus } }

/-- The Join & Scoring Engine `processData`: Pass 1 (embodied in
`plateSuspicious` / `chargerDiscrepancyCount` over the full transaction
list) followed by Pass 2's `transactions.map`. -/
def processData (txs : List Transaction) (ds : List AiDetection)
    (rtoDatabase : String → Option RtoData) (now : Int) :
    List ProcessedVehicleData :=
  txs.map (scoreTx txs ds rtoDatabase now)

/-! ## Shared lemmas about the scoring chain -/

lemma applyCheck_fst (st : Int × List String) (c : Bool) (m : String) :
    (applyCheck st c m).1 = st.1 - (if c then 20 else 0) := by
  cases c <;> simp [applyCheck]

lemma applyCheck_snd (st : Int × List String) (c : Bool) (m : String) :
    (applyCheck st c m).2 = st.2 ++ (if c then [m] else []) := by
  cases c <;> simp [applyCheck]

lemma scoreTx_plate (txs : List Transaction) (ds : List AiDetection)
    (db : String → Option RtoData) (now : Int) (tx : Transaction) :
    (scoreTx txs ds db now tx).plate = tx.plate := rfl

lemma scoreTx_rto (txs : List Transaction) (ds : List AiDetection)
    (db : String → Option RtoData) (now : Int) (tx : Transaction) :
    (scoreTx txs ds db now tx).rto = db tx.plate := rfl

lemma scoreTx_flag (txs : List Transaction) (ds : List AiDetection)
    (db : String → Option RtoData) (now : Int) (tx : Transaction) :
    (scoreTx txs ds db now tx).charging.discrepancyFlag =
      discrepancyFlagOf txs ds tx := rfl

lemma scoreTx_score (txs : List Transaction) (ds : List AiDetection)
    (db : String → Option RtoData) (now : Int) (tx : Transaction) :
    (scoreTx txs ds db now tx).compliance.score =
      max 0 (100
        - (if regTillOf (db tx.plate) > now then 0 else 20)
        - (if insuranceActiveOf (db tx.plate) then 0 else 20)
        - (if pucTillOf (db tx.plate) > now then 0 else 20)
        - (if fineDueOf (db tx.plate) then 20 else 0)
        - (if taxPaidOf (db tx.plate) then 0 else 20)
        - (if discrepancyFlagOf txs ds tx = "OK" then 0 else 20)) := by
  simp only [scoreTx, applyCheck_fst]
  by_cases h1 : regTillOf (db tx.plate) > now <;>
    by_cases h2 : insuranceActiveOf (db tx.plate) <;>
      by_cases h3 : pucTillOf (db tx.plate) > now <;>
        by_cases h4 : fineDueOf (db tx.plate) <;>
          by_cases h5 : taxPaidOf (db tx.plate) <;>
            by_cases h6 : discrepancyFlagOf txs ds tx = "OK" <;>
              simp [h1, h2, h3, h4, h5, h6]

lemma scoreTx_overallStatus (txs : List Transaction) (ds : List AiDetection)
    (db : String → Option RtoData) (now : Int) (tx : Transaction) :
    (scoreTx txs ds db now tx).compliance.overallStatus =
      (if regTillOf (db tx.plate) > now then [] else [regMsg tx.plate])
      ++ (if insuranceActiveOf (db tx.plate) then [] else [insMsg tx.plate])
      ++ (if pucTillOf (db tx.plate) > now then [] else [pucMsg tx.plate])
      ++ (if fineDueOf (db tx.plate) then
            [fineMsg (fineOf (db tx.plate)) tx.plate] else [])
      ++ (if taxPaidOf (db tx.plate) then [] else [taxMsg tx.plate])
      ++ (if discrepancyFlagOf txs ds tx = "OK" then []
          else [chargingMsg tx.plate])
      ++ (if helmetAdvisoryOf (findDetection ds tx.plate) then
            [helmetMsg tx.plate] else []) := by
  simp only [scoreTx, applyCheck_snd]
  by_cases h1 : regTillOf (db tx.plate) > now <;>
    by_cases h2 : insuranceActiveOf (db tx.plate) <;>
      by_cases h3 : pucTillOf (db tx.plate) > now <;>
        by_cases h4 : fineDueOf (db tx.plate) <;>
          by_cases h5 : taxPaidOf (db tx.plate) <;>
            by_cases h6 : discrepancyFlagOf txs ds tx = "OK" <;>
              by_cases h7 : helmetAdvisoryOf (findDetection ds tx.plate) <;>
                simp [h1, h2, h3, h4, h5, h6, h7]

/-! ## Distinctness of the violation message templates

Every template starts with a distinct character (`R`, `I`, `P`, `F`, `T`,
`C`, `N`), so messages produced by different checks can never coincide,
whatever the plate or fine amount. -/

lemma head_append (s t : String) (c : Char) (h : s.data.head? = some c) :
    (s ++ t).data.head? = some c := by
  rw [String.data_append]
  cases hs : s.data with
  | nil => simp [hs] at h
  | cons a l =>
      simp [hs] at h ⊢
      exact h

lemma ne_of_head (s t : String) (c d : Char) (hs : s.data.head? = some c)
    (ht : t.data.head? = some d) (hcd : c ≠ d) : s ≠ t := by
  intro e
  subst e
  rw [hs] at ht
  exact hcd (Option.some.inj ht)

lemma regMsg_head (p : String) : (regMsg p).data.head? = some 'R' :=
  head_append _ _ _ rfl

lemma insMsg_head (p : String) : (insMsg p).data.head? = some 'I' :=
  head_append _ _ _ rfl

lemma pucMsg_head (p : String) : (pucMsg p).data.head? = some 'P' :=
  head_append _ _ _ rfl

lemma fineMsg_head (f : Int) (p : String) :
    (fineMsg f p).data.head? = some 'F' :=
  head_append _ _ _ (head_append _ _ _ (head_append _ _ _ rfl))

lemma taxMsg_head (p : String) : (taxMsg p).data.head? = some 'T' :=
  head_append _ _ _ rfl

lemma chargingMsg_head (p : String) : (chargingMsg p).data.head? = some 'C' :=
  head_append _ _ _ rfl

lemma helmetMsg_head (p : String) : (helmetMsg p).data.head? = some 'N' :=
  head_append _ _ _ rfl

lemma chargingMsg_ne_regMsg (p q : String) : chargingMsg p ≠ regMsg q :=
  ne_of_head _ _ 'C' 'R' (chargingMsg_head p) (regMsg_head q) (by decide)

lemma chargingMsg_ne_insMsg (p q : String) : chargingMsg p ≠ insMsg q :=
  ne_of_head _ _ 'C' 'I' (chargingMsg_head p) (insMsg_head q) (by decide)

lemma chargingMsg_ne_pucMsg (p q : String) : chargingMsg p ≠ pucMsg q :=
  ne_of_head _ _ 'C' 'P' (chargingMsg_head p) (pucMsg_head q) (by decide)

lemma chargingMsg_ne_fineMsg (p : String) (f : Int) (q : String) :
    chargingMsg p ≠ fineMsg f q :=
  ne_of_head _ _ 'C' 'F' (chargingMsg_head p) (fineMsg_head f q) (by decide)

lemma chargingMsg_ne_taxMsg (p q : String) : chargingMsg p ≠ taxMsg q :=
  ne_of_head _ _ 'C' 'T' (chargingMsg_head p) (taxMsg_head q) (by decide)

lemma chargingMsg_ne_helmetMsg (p q : String) : chargingMsg p ≠ helmetMsg q :=
  ne_of_head _ _ 'C' 'N' (chargingMsg_head p) (helmetMsg_head q) (by decide)

lemma regMsg_bne_helmetMsg (p q : String) : (regMsg p != helmetMsg q) = true := by
  simp only [bne_iff_ne, ne_eq]
  exact ne_of_head _ _ 'R' 'N' (regMsg_head p) (helmetMsg_head q) (by decide)

lemma insMsg_bne_helmetMsg (p q : String) : (insMsg p != helmetMsg q) = true := by
  simp only [bne_iff_ne, ne_eq]
  exact ne_of_head _ _ 'I' 'N' (insMsg_head p) (helmetMsg_head q) (by decide)

lemma pucMsg_bne_helmetMsg (p q : String) : (pucMsg p != helmetMsg q) = true := by
  simp only [bne_iff_ne, ne_eq]
  exact ne_of_head _ _ 'P' 'N' (pucMsg_head p) (helmetMsg_head q) (by decide)

lemma fineMsg_bne_helmetMsg (f : Int) (p q : String) :
    (fineMsg f p != helmetMsg q) = true := by
  simp only [bne_iff_ne, ne_eq]
  exact ne_of_head _ _ 'F' 'N' (fineMsg_head f p) (helmetMsg_head q) (by decide)

lemma taxMsg_bne_helmetMsg (p q : String) : (taxMsg p != helmetMsg q) = true := by
  simp only [bne_iff_ne, ne_eq]
  exact ne_of_head _ _ 'T' 'N' (taxMsg_head p) (helmetMsg_head q) (by decide)

lemma chargingMsg_bne_helmetMsg (p q : String) :
    (chargingMsg p != helmetMsg q) = true := by
  simp only [bne_iff_ne, ne_eq]
  exact chargingMsg_ne_helmetMsg p q

/-- Number of failed checks among the six deducting checks (the five
registry checks in source order, then the charging-flag check), for a
given resolved registry record, clock and discrepancy flag. -/
def failCount (rto : Option RtoData) (now : Int) (flag : String) : Nat :=
  (if regTillOf rto > now then 0 else 1)
  + (if insuranceActiveOf rto then 0 else 1)
  + (if pucTillOf rto > now then 0 else 1)
  + (if fineDueOf rto then 1 else 0)
  + (if taxPaidOf rto then 0 else 1)
  + (if flag = "OK" then 0 else 1)

lemma scoreTx_score_failCount (txs : List Transaction) (ds : List AiDetection)
    (db : String → Option RtoData) (now : Int) (tx : Transaction) :
    (scoreTx txs ds db now tx).compliance.score =
      max 0 (100 - 20 *
        (failCount (db tx.plate) now (discrepancyFlagOf txs ds tx) : Int)) := by
  rw [scoreTx_score]
  unfold failCount
  split_ifs <;> push_cast <;> omega

lemma overall_filter_count (txs : List Transaction) (ds : List AiDetection)
    (db : String → Option RtoData) (now : Int) (tx : Transaction) :
    ((scoreTx txs ds db now tx).compliance.overallStatus.filter
        (fun m => m != helmetMsg tx.plate)).length =
      failCount (db tx.plate) now (discrepancyFlagOf txs ds tx) := by
  rw [scoreTx_overallStatus]
  unfold failCount
  split_ifs <;>
    simp [regMsg_bne_helmetMsg, insMsg_bne_helmetMsg, pucMsg_bne_helmetMsg,
      fineMsg_bne_helmetMsg, taxMsg_bne_helmetMsg, chargingMsg_bne_helmetMsg]

lemma chargingMsg_mem_iff (txs : List Transaction) (ds : List AiDetection)
    (db : String → Option RtoData) (now : Int) (tx : Transaction) :
    chargingMsg tx.plate ∈ (scoreTx txs ds db now tx).compliance.overallStatus
      ↔ discrepancyFlagOf txs ds tx ≠ "OK" := by
  rw [scoreTx_overallStatus]
  split_ifs <;>
    simp_all [chargingMsg_ne_regMsg, chargingMsg_ne_insMsg,
      chargingMsg_ne_pucMsg, chargingMsg_ne_fineMsg, chargingMsg_ne_taxMsg,
      chargingMsg_ne_helmetMsg]

/-! ## Concrete fixtures used by witnesses and counterexamples -/

/-- A registry database with no record for any plate. -/
def noRegistry : String → Option RtoData := fun _ => none

/-- Transaction fixture. -/
def mkTx (plate charger : String) (billed : Rat) : Transaction :=
  { timestamp := "2025-10-31T10:20:00", plate := plate, billedKwh := billed,
    amount := 0, chargerId := charger }

/-- Detection fixture (4-wheeler, unknown helmet). -/
def mkDet (plate : String) (kwh : Rat) : AiDetection :=
  { plate := plate, vehicleType := "4-Wheeler", helmet := none,
    detectedKwh := kwh, timestamp := "2025-10-31T10:20:00" }

/-! ## Claims -/

/-- C1: every vehicle produced by `processData` has compliance score
`max 0 (100 - 20 * k)` where `k` counts the failed checks among:
registration not strictly in the future, insurance not "Active", pollution
certificate not strictly in the future, pending fine positive, road tax not
"Paid", and discrepancy flag not "OK" — each failed check subtracts exactly
20 from the initial 100 and the result is floored at 0. -/
theorem vigamo_c1_penalty_scheme (txs : List Transaction)
    (ds : List AiDetection) (db : String → Option RtoData) (now : Int)
    (v : ProcessedVehicleData) (hv : v ∈ processData txs ds db now) :
    v.compliance.score =
      max 0 (100 - 20 *
        (failCount v.rto now v.charging.discrepancyFlag : Int)) := by
  simp only [processData] at hv
  obtain ⟨tx, htx, rfl⟩ := List.mem_map.mp hv
  exact scoreTx_score_failCount txs ds db now tx

theorem vigamo_c1_penalty_scheme_witness :
    scoreTx [mkTx "P" "C" 10] [] noRegistry 0 (mkTx "P" "C" 10) ∈
        processData [mkTx "P" "C" 10] [] noRegistry 0
    ∧ (scoreTx [mkTx "P" "C" 10] [] noRegistry 0
        (mkTx "P" "C" 10)).compliance.score =
      max 0 (100 - 20 * (failCount
        (scoreTx [mkTx "P" "C" 10] [] noRegistry 0 (mkTx "P" "C" 10)).rto 0
        (scoreTx [mkTx "P" "C" 10] [] noRegistry 0
          (mkTx "P" "C" 10)).charging.discrepancyFlag : Int)) :=
  ⟨by with_unfolding_all decide, vigamo_c1_penalty_scheme [mkTx "P" "C" 10] [] noRegistry 0 _ (by with_unfolding_all decide)⟩

/-- C2, as stated, is false: the discrepancy flag of a transaction whose
own billed/detected difference is within the 2.0 kWh tolerance is still
"Suspicious" when another transaction with the same plate was flagged in
Pass 1.  Input: two transactions of plate "P1" (billed 20 and 10 kWh) and
one detection (10 kWh); the second transaction matches its detection
exactly, yet both vehicles show "Suspicious". -/
theorem vigamo_c2_counterexample :
    findDetection [mkDet "P1" 10] (mkTx "P1" "C2" 10).plate =
        some (mkDet "P1" 10)
    ∧ ratAbs ((mkTx "P1" "C2" 10).billedKwh - (mkDet "P1" 10).detectedKwh) ≤ 2
    ∧ (processData [mkTx "P1" "C1" 20, mkTx "P1" "C2" 10] [mkDet "P1" 10]
        noRegistry 0).map (fun v => v.charging.discrepancyFlag) =
      ["Suspicious", "Suspicious"] := by with_unfolding_all decide

/-- C2 (amended): if a transaction has a matching detection with
`|billed − detected| ≤ 2.0`, and additionally its plate was not marked
suspicious by any transaction in Pass 1 and its chargerId accumulated
fewer than 3 flagged discrepancies in Pass 1, then its discrepancy flag
is "OK". -/
theorem vigamo_c2_amended (txs : List Transaction) (ds : List AiDetection)
    (db : String → Option RtoData) (now : Int) (tx : Transaction)
    (hmem : tx ∈ txs) (d : AiDetection)
    (hd : findDetection ds tx.plate = some d)
    (hdiff : ratAbs (tx.billedKwh - d.detectedKwh) ≤ 2)
    (hplate : plateSuspicious txs ds tx.plate = false)
    (hcharger : chargerDiscrepancyCount txs ds tx.chargerId < 3) :
    (scoreTx txs ds db now tx).charging.discrepancyFlag = "OK" := by
  rw [scoreTx_flag]
  unfold discrepancyFlagOf
  rw [if_neg (by omega), if_neg (by simp [hplate])]

theorem vigamo_c2_amended_witness :
    mkTx "P1" "C1" 10 ∈ [mkTx "P1" "C1" 10]
    ∧ findDetection [mkDet "P1" 10] (mkTx "P1" "C1" 10).plate =
        some (mkDet "P1" 10)
    ∧ ratAbs ((mkTx "P1" "C1" 10).billedKwh - (mkDet "P1" 10).detectedKwh) ≤ 2
    ∧ plateSuspicious [mkTx "P1" "C1" 10] [mkDet "P1" 10]
        (mkTx "P1" "C1" 10).plate = false
    ∧ chargerDiscrepancyCount [mkTx "P1" "C1" 10] [mkDet "P1" 10]
        (mkTx "P1" "C1" 10).chargerId < 3
    ∧ (scoreTx [mkTx "P1" "C1" 10] [mkDet "P1" 10] noRegistry 0
        (mkTx "P1" "C1" 10)).charging.discrepancyFlag = "OK" :=
  ⟨by with_unfolding_all decide, by with_unfolding_all decide, by with_unfolding_all decide, by with_unfolding_all decide, by with_unfolding_all decide,
   vigamo_c2_amended [mkTx "P1" "C1" 10] [mkDet "P1" 10] noRegistry 0
     (mkTx "P1" "C1" 10) (by with_unfolding_all decide) (mkDet "P1" 10)
     (by with_unfolding_all decide) (by with_unfolding_all decide)
     (by with_unfolding_all decide) (by with_unfolding_all decide)⟩

/-- C3: when a charger accumulated at least 3 flagged discrepancies in
Pass 1, every transaction on that charger that was itself flagged gets the
"Potential Charger Fault" flag — the charger-level signal overrides the
vehicle-level "Suspicious" one, regardless of the individual difference. -/
theorem vigamo_c3_charger_fault_override (txs : List Transaction)
    (ds : List AiDetection) (db : String → Option RtoData) (now : Int)
    (c : String) (hcount : 3 ≤ chargerDiscrepancyCount txs ds c)
    (tx : Transaction) (hmem : tx ∈ txs) (hcharger : tx.chargerId = c)
    (hflagged : txSuspicious ds tx = true) :
    (scoreTx txs ds db now tx).charging.discrepancyFlag =
      "Potential Charger Fault" := by
  subst hcharger
  rw [scoreTx_flag]
  unfold discrepancyFlagOf
  exact if_pos hcount

theorem vigamo_c3_charger_fault_override_witness :
    3 ≤ chargerDiscrepancyCount
        [mkTx "P1" "C" 10, mkTx "P2" "C" 10, mkTx "P3" "C" 10]
        [mkDet "P1" 0, mkDet "P2" 0, mkDet "P3" 0] "C"
    ∧ mkTx "P1" "C" 10 ∈
        [mkTx "P1" "C" 10, mkTx "P2" "C" 10, mkTx "P3" "C" 10]
    ∧ (mkTx "P1" "C" 10).chargerId = "C"
    ∧ txSuspicious [mkDet "P1" 0, mkDet "P2" 0, mkDet "P3" 0]
        (mkTx "P1" "C" 10) = true
    ∧ (scoreTx [mkTx "P1" "C" 10, mkTx "P2" "C" 10, mkTx "P3" "C" 10]
        [mkDet "P1" 0, mkDet "P2" 0, mkDet "P3" 0] noRegistry 0
        (mkTx "P1" "C" 10)).charging.discrepancyFlag =
      "Potential Charger Fault" :=
  ⟨by with_unfolding_all decide, by with_unfolding_all decide, by with_unfolding_all decide, by with_unfolding_all decide,
   vigamo_c3_charger_fault_override [mkTx "P1" "C" 10, mkTx "P2" "C" 10, mkTx "P3" "C" 10] [mkDet "P1" 0, mkDet "P2" 0, mkDet "P3" 0] noRegistry 0 "C" (by with_unfolding_all decide) _
     (by with_unfolding_all decide) (by with_unfolding_all decide) (by with_unfolding_all decide)⟩

/-- C4: every vehicle produced by `processData` has a compliance score
between 0 and 100. -/
theorem vigamo_c4_score_bounds (txs : List Transaction)
    (ds : List AiDetection) (db : String → Option RtoData) (now : Int)
    (v : ProcessedVehicleData) (hv : v ∈ processData txs ds db now) :
    0 ≤ v.compliance.score ∧ v.compliance.score ≤ 100 := by
  simp only [processData] at hv
  obtain ⟨tx, htx, rfl⟩ := List.mem_map.mp hv
  rw [scoreTx_score_failCount]
  have h0 : (0 : Int) ≤
      (failCount (db tx.plate) now (discrepancyFlagOf txs ds tx) : Int) :=
    Int.natCast_nonneg _
  omega

theorem vigamo_c4_score_bounds_witness :
    scoreTx [mkTx "P" "C" 10] [] noRegistry 0 (mkTx "P" "C" 10) ∈
        processData [mkTx "P" "C" 10] [] noRegistry 0
    ∧ 0 ≤ (scoreTx [mkTx "P" "C" 10] [] noRegistry 0
        (mkTx "P" "C" 10)).compliance.score
    ∧ (scoreTx [mkTx "P" "C" 10] [] noRegistry 0
        (mkTx "P" "C" 10)).compliance.score ≤ 100 :=
  ⟨by with_unfolding_all decide, vigamo_c4_score_bounds [mkTx "P" "C" 10] [] noRegistry 0 _ (by with_unfolding_all decide)⟩

/-- C5: `processData` yields exactly one scored vehicle per transaction:
the output length equals the input length and the i-th output is the
scored i-th transaction (same order, total left-outer join). -/
theorem vigamo_c5_one_output_per_transaction (txs : List Transaction)
    (ds : List AiDetection) (db : String → Option RtoData) (now : Int) :
    (processData txs ds db now).length = txs.length
    ∧ ∀ i : Nat, (processData txs ds db now)[i]? =
        (txs[i]?).map (scoreTx txs ds db now) := by
  refine ⟨by simp [processData], fun i => ?_⟩
  simp [processData]

/-- C6: a transaction with no matching detection defaults to vehicle type
"Other", unknown helmet (`null`), detected energy equal to the billed
energy, and difference 0. -/
theorem vigamo_c6_missing_detection_defaults (txs : List Transaction)
    (ds : List AiDetection) (db : String → Option RtoData) (now : Int)
    (tx : Transaction) (hmem : tx ∈ txs)
    (hdet : findDetection ds tx.plate = none) :
    (scoreTx txs ds db now tx).vehicleType = "Other"
    ∧ (scoreTx txs ds db now tx).helmet = none
    ∧ (scoreTx txs ds db now tx).charging.detected = tx.billedKwh
    ∧ (scoreTx txs ds db now tx).charging.difference = 0 := by
  refine ⟨?_, ?_, ?_, ?_⟩ <;> simp [scoreTx, detectedValOf, hdet]

theorem vigamo_c6_missing_detection_defaults_witness :
    mkTx "P" "C" 10 ∈ [mkTx "P" "C" 10]
    ∧ findDetection [] (mkTx "P" "C" 10).plate = none
    ∧ (scoreTx [mkTx "P" "C" 10] [] noRegistry 0
        (mkTx "P" "C" 10)).vehicleType = "Other"
    ∧ (scoreTx [mkTx "P" "C" 10] [] noRegistry 0
        (mkTx "P" "C" 10)).helmet = none
    ∧ (scoreTx [mkTx "P" "C" 10] [] noRegistry 0
        (mkTx "P" "C" 10)).charging.detected = (mkTx "P" "C" 10).billedKwh
    ∧ (scoreTx [mkTx "P" "C" 10] [] noRegistry 0
        (mkTx "P" "C" 10)).charging.difference = 0 :=
  ⟨by with_unfolding_all decide, by with_unfolding_all decide,
   (vigamo_c6_missing_detection_defaults [mkTx "P" "C" 10] [] noRegistry 0 _ (by with_unfolding_all decide)
     (by with_unfolding_all decide)).1,
   (vigamo_c6_missing_detection_defaults [mkTx "P" "C" 10] [] noRegistry 0 _ (by with_unfolding_all decide)
     (by with_unfolding_all decide)).2.1,
   (vigamo_c6_missing_detection_defaults [mkTx "P" "C" 10] [] noRegistry 0 _ (by with_unfolding_all decide)
     (by with_unfolding_all decide)).2.2.1,
   (vigamo_c6_missing_detection_defaults [mkTx "P" "C" 10] [] noRegistry 0 _ (by with_unfolding_all decide)
     (by with_unfolding_all decide)).2.2.2⟩

/-- Two-wheeler detection fixture with unknown helmet. -/
def det2W : AiDetection :=
  { plate := "P", vehicleType := "2-Wheeler", helmet := none,
    detectedKwh := 10, timestamp := "2025-10-31T10:20:00" }

/-- C7: a transaction whose plate has no registry record defaults to
insurance status "Expired" and road-tax status "Due", appends the two
corresponding violation messages, and — when none of the other four checks
fails (registration and pollution read "Valid", flag "OK"; the fine check
passes automatically without a record) — scores exactly
100 − 20 − 20 = 60. -/
theorem vigamo_c7_missing_registry_defaults (txs : List Transaction)
    (ds : List AiDetection) (db : String → Option RtoData) (now : Int)
    (tx : Transaction) (hmem : tx ∈ txs) (hrto : db tx.plate = none) :
    (scoreTx txs ds db now tx).compliance.insuranceStatus = "Expired"
    ∧ (scoreTx txs ds db now tx).compliance.taxStatus = "Due"
    ∧ insMsg tx.plate ∈ (scoreTx txs ds db now tx).compliance.overallStatus
    ∧ taxMsg tx.plate ∈ (scoreTx txs ds db now tx).compliance.overallStatus
    ∧ ((scoreTx txs ds db now tx).compliance.registrationStatus = "Valid" →
        (scoreTx txs ds db now tx).compliance.pucStatus = "Valid" →
        (scoreTx txs ds db now tx).charging.discrepancyFlag = "OK" →
        (scoreTx txs ds db now tx).compliance.score = 60) := by
  refine ⟨?_, ?_, ?_, ?_, ?_⟩
  · simp [scoreTx, hrto]
  · simp [scoreTx, hrto]
  · rw [scoreTx_overallStatus]
    simp [hrto, insuranceActiveOf]
  · rw [scoreTx_overallStatus]
    simp [hrto, taxPaidOf]
  · intro hreg hpuc hflag
    have hr : regTillOf (db tx.plate) > now := by
      by_contra h
      simp [scoreTx, h] at hreg
    have hp : pucTillOf (db tx.plate) > now := by
      by_contra h
      simp [scoreTx, h] at hpuc
    rw [scoreTx_flag] at hflag
    rw [scoreTx_score]
    rw [hrto] at hr hp ⊢
    simp [hr, hp, hflag, insuranceActiveOf, taxPaidOf, fineDueOf]

theorem vigamo_c7_missing_registry_defaults_witness :
    mkTx "P" "C" 10 ∈ [mkTx "P" "C" 10]
    ∧ noRegistry (mkTx "P" "C" 10).plate = none
    ∧ (scoreTx [mkTx "P" "C" 10] [] noRegistry (-1)
        (mkTx "P" "C" 10)).compliance.score = 60 :=
  ⟨by with_unfolding_all decide, rfl,
   (vigamo_c7_missing_registry_defaults [mkTx "P" "C" 10] [] noRegistry (-1)
      (mkTx "P" "C" 10) (by with_unfolding_all decide) rfl).2.2.2.2
     (by with_unfolding_all decide) (by with_unfolding_all decide)
     (by with_unfolding_all decide)⟩

/-- C8: the scoring engine is a pure function of the transaction list, the
detection list, the registry lookup and the clock reading: running it
twice on the same inputs yields identical scored-vehicle lists (there is
no hidden state; the wall clock is an explicit input of the embedding). -/
theorem vigamo_c8_engine_pure (txs : List Transaction)
    (ds : List AiDetection) (db : String → Option RtoData) (now : Int) :
    processData txs ds db now = processData txs ds db now := rfl

/-- C9: a transaction whose matching detection reads exactly 0 kWh is
treated in Pass 2 as if the reading were absent (`0` is falsy in JS): the
output shows `detected = billedKwh` and `difference = 0`, while Pass 1
used the true zero reading — so for `billedKwh > 2.0` the flag is
"Suspicious" or "Potential Charger Fault" together with difference 0. -/
theorem vigamo_c9_zero_reading (txs : List Transaction)
    (ds : List AiDetection) (db : String → Option RtoData) (now : Int)
    (tx : Transaction) (hmem : tx ∈ txs) (d : AiDetection)
    (hd : findDetection ds tx.plate = some d) (hzero : d.detectedKwh = 0) :
    (scoreTx txs ds db now tx).charging.detected = tx.billedKwh
    ∧ (scoreTx txs ds db now tx).charging.difference = 0
    ∧ (2 < tx.billedKwh →
        (scoreTx txs ds db now tx).charging.discrepancyFlag = "Suspicious"
        ∨ (scoreTx txs ds db now tx).charging.discrepancyFlag =
            "Potential Charger Fault") := by
  refine ⟨?_, ?_, ?_⟩
  · simp [scoreTx, detectedValOf, hd, hzero]
  · simp [scoreTx, detectedValOf, hd, hzero]
  · intro hb
    have hnn : ¬(tx.billedKwh < 0) := by linarith
    have htx : txSuspicious ds tx = true := by
      simp only [txSuspicious, hd, hzero, sub_zero, ratAbs, if_neg hnn,
        gt_iff_lt, decide_eq_true_eq]
      exact hb
    have hsusp : plateSuspicious txs ds tx.plate = true := by
      unfold plateSuspicious
      rw [List.any_eq_true]
      exact ⟨tx, hmem, by simp [htx]⟩
    rw [scoreTx_flag]
    unfold discrepancyFlagOf
    by_cases hc : chargerDiscrepancyCount txs ds tx.chargerId ≥ 3
    · right
      rw [if_pos hc]
    · left
      rw [if_neg hc, if_pos hsusp]

theorem vigamo_c9_zero_reading_witness :
    mkTx "P" "C" 10 ∈ [mkTx "P" "C" 10]
    ∧ findDetection [mkDet "P" 0] (mkTx "P" "C" 10).plate =
        some (mkDet "P" 0)
    ∧ (mkDet "P" 0).detectedKwh = 0
    ∧ 2 < (mkTx "P" "C" 10).billedKwh
    ∧ (scoreTx [mkTx "P" "C" 10] [mkDet "P" 0] noRegistry 0
        (mkTx "P" "C" 10)).charging.detected = (mkTx "P" "C" 10).billedKwh
    ∧ (scoreTx [mkTx "P" "C" 10] [mkDet "P" 0] noRegistry 0
        (mkTx "P" "C" 10)).charging.difference = 0
    ∧ ((scoreTx [mkTx "P" "C" 10] [mkDet "P" 0] noRegistry 0
          (mkTx "P" "C" 10)).charging.discrepancyFlag = "Suspicious"
        ∨ (scoreTx [mkTx "P" "C" 10] [mkDet "P" 0] noRegistry 0
            (mkTx "P" "C" 10)).charging.discrepancyFlag =
          "Potential Charger Fault") :=
  have H := vigamo_c9_zero_reading [mkTx "P" "C" 10] [mkDet "P" 0]
    noRegistry 0 (mkTx "P" "C" 10) (by with_unfolding_all decide)
    (mkDet "P" 0) rfl rfl
  ⟨by with_unfolding_all decide, rfl, rfl, by with_unfolding_all decide,
   H.1, H.2.1, H.2.2 (by with_unfolding_all decide)⟩

/-- C10: for every vehicle produced by `processData`, the score equals
`max 0 (100 − 20·k)` where `k` is the number of violation messages that
are not the helmet advisory ("No Helmet on {plate}") — so the helmet
advisory never changes the score — and the flag differs from "OK" exactly
when the "Charging Discrepancy" message appears in the list. -/
theorem vigamo_c10_score_message_invariant (txs : List Transaction)
    (ds : List AiDetection) (db : String → Option RtoData) (now : Int)
    (v : ProcessedVehicleData) (hv : v ∈ processData txs ds db now) :
    v.compliance.score =
      max 0 (100 - 20 *
        ((v.compliance.overallStatus.filter
            (fun m => m != helmetMsg v.plate)).length : Int))
    ∧ (v.charging.discrepancyFlag ≠ "OK" ↔
        chargingMsg v.plate ∈ v.compliance.overallStatus) := by
  simp only [processData] at hv
  obtain ⟨tx, htx, rfl⟩ := List.mem_map.mp hv
  constructor
  · rw [scoreTx_score_failCount, scoreTx_plate, overall_filter_count]
  · rw [scoreTx_plate, scoreTx_flag]
    exact Iff.symm (chargingMsg_mem_iff txs ds db now tx)

theorem vigamo_c10_score_message_invariant_witness :
    scoreTx [mkTx "P" "C" 10] [det2W] noRegistry 0 (mkTx "P" "C" 10) ∈
        processData [mkTx "P" "C" 10] [det2W] noRegistry 0
    ∧ (scoreTx [mkTx "P" "C" 10] [det2W] noRegistry 0
        (mkTx "P" "C" 10)).compliance.score =
      max 0 (100 - 20 *
        (((scoreTx [mkTx "P" "C" 10] [det2W] noRegistry 0
            (mkTx "P" "C" 10)).compliance.overallStatus.filter
          (fun m => m != helmetMsg (scoreTx [mkTx "P" "C" 10] [det2W]
            noRegistry 0 (mkTx "P" "C" 10)).plate)).length : Int))
    ∧ ((scoreTx [mkTx "P" "C" 10] [det2W] noRegistry 0
          (mkTx "P" "C" 10)).charging.discrepancyFlag ≠ "OK" ↔
        chargingMsg (scoreTx [mkTx "P" "C" 10] [det2W] noRegistry 0
            (mkTx "P" "C" 10)).plate ∈
          (scoreTx [mkTx "P" "C" 10] [det2W] noRegistry 0
            (mkTx "P" "C" 10)).compliance.overallStatus) :=
  have H := vigamo_c10_score_message_invariant [mkTx "P" "C" 10] [det2W]
    noRegistry 0 _ (by with_unfolding_all decide)
  ⟨by with_unfolding_all decide, H.1, H.2⟩
